import Mathlib

/-!
Verification development for the SolAgent Economy program
(`programs/solagent/src/lib.rs`).

The on-chain instruction handlers are embedded shallowly as Lean functions:

* account records (`Agent`, `Service`, `Payment`, `Feedback`, `Stream`)
  become structures over `Nat`/`Int`; public keys are abstracted as `Nat`
  identifiers; display-metadata string fields that no handler logic reads
  (names, descriptions, tags, endpoints) and PDA bump bytes are omitted;
* `u64` fields are carried as `Nat` and `i64` fields as `Int`; Rust `as`
  casts are modelled with their wrapping semantics (`% 2^64`), and the
  arithmetic of the payment/stream engines is modelled as overflow-checked
  (an over/underflowing operation aborts the whole instruction), following
  the numeric policy of the specification, because the crate profile that
  fixes the behaviour of Rust `+`/`-`/`*` is not part of the sources;
* a failing instruction is modelled as `Except.error`: on the substrate a
  failed instruction commits nothing, so an error result carries no
  post-state;
* the `f64` reputation computation is modelled over `ℝ` with exact real
  arithmetic; the saturating Rust `f64 as u64` cast becomes
  `Int.toNat ∘ Int.floor` (negative results clamp to `0`);
* the substrate clock reading `Clock::get()?.unix_timestamp` becomes an
  explicit `now : Int` argument, and lamport transfers become explicit
  balance arguments/results.
-/

namespace Solagent

/-- Modulus of the 64-bit unsigned machine integers used by the program. -/
def u64Size : ℕ := 2 ^ 64

/-- Smallest value of the 64-bit signed machine integers (`i64::MIN`). -/
def i64Min : ℤ := -(2 ^ 63)

/-- Largest value of the 64-bit signed machine integers (`i64::MAX`). -/
def i64Max : ℤ := 2 ^ 63 - 1

/-- Rust `x as u64` for `x : i64`: a wrapping (two's-complement) cast. -/
def i64AsU64 (x : ℤ) : ℕ := (x % (2 ^ 64 : ℤ)).toNat

/-- Rust `x as i64` for `x : u64`: a wrapping (two's-complement) cast. -/
def u64AsI64 (x : ℕ) : ℤ := if x < 2 ^ 63 then (x : ℤ) else (x : ℤ) - 2 ^ 64

/-- Error codes of the program (`SolAgentError` in `lib.rs`), extended with
two abort causes that end an instruction without a program error code:
`TransferFailed` (a system-program transfer with insufficient source
balance) and `ArithmeticAbort` (checked machine arithmetic overflowing). -/
inductive SolAgentError where
  | NameTooLong
  | DescriptionTooLong
  | TooManyCapabilities
  | ZeroAmount
  | InvalidRating
  | CommentTooLong
  | TitleTooLong
  | TooManyTags
  | IntentTooLong
  | PaymentNotEscrowed
  | RefundNotAllowed
  | InsufficientDeposit
  | StreamNotActive
  | NothingToWithdraw
  | Unauthorized
  | TransferFailed
  | ArithmeticAbort
deriving DecidableEq, Repr

/-- The `Agent` account (numeric and authorization fields). -/
structure Agent where
  authority : ℕ
  reputation_score : ℕ
  total_staked : ℕ
  total_earned : ℕ
  total_spent : ℕ
  services_completed : ℕ
  services_requested : ℕ
  feedbacks_received : ℕ
  registered_at : ℤ
  is_active : Bool
deriving DecidableEq, Repr

/-- The `Service` account (numeric fields). -/
structure Service where
  provider : ℕ
  authority : ℕ
  price_lamports : ℕ
  total_orders : ℕ
  total_revenue : ℕ
  avg_rating : ℕ
  is_active : Bool
deriving DecidableEq, Repr

/-- The `PaymentStatus` enum of `lib.rs`. -/
inductive PaymentStatus where
  | Escrowed
  | Released
  | Refunded
  | Disputed
deriving DecidableEq, Repr

/-- The `Payment` account. -/
structure Payment where
  payer : ℕ
  receiver : ℕ
  service : ℕ
  amount : ℕ
  intent : String
  conditions : List String
  status : PaymentStatus
  created_at : ℤ
  timeout_at : ℤ
  completed_at : ℤ
deriving DecidableEq, Repr

/-- The `Feedback` account. -/
structure Feedback where
  from_agent : ℕ
  to_agent : ℕ
  rating : ℕ
  comment : String
  timestamp : ℤ
deriving DecidableEq, Repr

/-- The `Stream` account. -/
structure Stream where
  payer : ℕ
  receiver : ℕ
  rate_per_second : ℕ
  deposited : ℕ
  withdrawn : ℕ
  started_at : ℤ
  max_end_at : ℤ
  last_withdrawn_at : ℤ
  is_active : Bool
deriving DecidableEq, Repr

/-! ## Reputation scoring engine (`lib.rs` lines 83-91 and 124-132)

The identical score computation appears inline in `stake_reputation` and in
`submit_feedback`; `baseRep`/`reputationScore` factor it out verbatim.
`staked_sol.log2() * 10.0 + 50.0` is real arithmetic here, and the
saturating `as u64` cast of the (possibly negative) result is
`Int.toNat ∘ Int.floor`. -/

/-- The `base_rep` computation: `let staked_sol = total_staked as f64 /
1_000_000_000.0; if staked_sol > 0.0 then (staked_sol.log2() * 10.0 + 50.0)
as u64 else 0`. -/
noncomputable def baseRep (total_staked : ℕ) : ℕ :=
  let staked_sol : ℝ := (total_staked : ℝ) / 1000000000
  if 0 < staked_sol then (⌊Real.logb 2 staked_sol * 10 + 50⌋).toNat else 0

/-- `base_rep + feedback_bonus + completion_bonus` exactly as computed at
`lib.rs` lines 83-91 (and identically at lines 124-132). -/
noncomputable def reputationScore
    (total_staked feedbacks_received services_completed : ℕ) : ℕ :=
  baseRep total_staked + min feedbacks_received 100 * 2
    + min services_completed 500

/-- Reference reputation definition taken from the specification text for
comparison with `reputationScore` (claim C1): `staked_units` is
`total_staked` divided by the base unit `10^9` as a conversion "to whole
base units" (integer division), `base = floor(log2(staked_units) * 10 +
50)` when `staked_units > 0` and `0` otherwise. -/
noncomputable def baseRepSpecRef (total_staked : ℕ) : ℕ :=
  let staked_units : ℕ := total_staked / 1000000000
  if 0 < staked_units then
    (⌊Real.logb 2 (staked_units : ℝ) * 10 + 50⌋).toNat
  else 0

/-- Reference total score from the specification text (claim C1):
`base + min(feedbacks_received, 100) * 2 + min(services_completed, 500)`
over `baseRepSpecRef`. -/
noncomputable def reputationScoreSpecRef
    (total_staked feedbacks_received services_completed : ℕ) : ℕ :=
  baseRepSpecRef total_staked + min feedbacks_received 100 * 2
    + min services_completed 500

/-- The `stake_reputation` instruction (`lib.rs` lines 63-101).
`authority_wallet` is the signing authority's lamport balance; the result
is the updated agent together with the authority's remaining balance (the
staked lamports move into the vault PDA). -/
noncomputable def stake_reputation (agent : Agent) (authority_wallet : ℕ)
    (amount : ℕ) : Except SolAgentError (Agent × ℕ) :=
  if amount = 0 then .error .ZeroAmount
  else if authority_wallet < amount then .error .TransferFailed
  else
    let total_staked := agent.total_staked + amount
    let agent :=
      { agent with
        total_staked := total_staked
        reputation_score :=
          reputationScore total_staked agent.feedbacks_received
            agent.services_completed }
    .ok (agent, authority_wallet - amount)

set_option linter.unusedVariables false in
/-- The `submit_feedback` instruction (`lib.rs` lines 104-142).
`authority` is the signing key; the handler and the `SubmitFeedback`
account constraints never compare it against `from_agent`, so it is an
unused argument exactly as in the source. `from_key`/`to_key` are the
account addresses of the two agent PDAs. -/
noncomputable def submit_feedback (authority : ℕ) (from_key to_key : ℕ)
    (to_agent : Agent) (rating : ℕ) (comment : String) (now : ℤ) :
    Except SolAgentError (Feedback × Agent) :=
  if ¬(1 ≤ rating ∧ rating ≤ 5) then .error .InvalidRating
  else if ¬(comment.length ≤ 256) then .error .CommentTooLong
  else
    let feedback : Feedback :=
      { from_agent := from_key
        to_agent := to_key
        rating := rating
        comment := comment
        timestamp := now }
    let feedbacks_received := to_agent.feedbacks_received + 1
    let to_agent :=
      { to_agent with
        feedbacks_received := feedbacks_received
        reputation_score :=
          reputationScore to_agent.total_staked feedbacks_received
            to_agent.services_completed }
    .ok (feedback, to_agent)

/-! ## Escrow payment state machine (`lib.rs` lines 194-330)

The Anchor account constraints of `ReleasePayment` (`has_one = payer` on
the payment and `has_one = authority` on `payer_agent`) run before the
handler body and are modelled as the two leading `Unauthorized` checks.
The `RefundPayment` account struct carries no such constraints, matching
the source. Escrow/wallet lamport balances are explicit arguments. -/

/-- Result of a successful `pay_for_service`: the new payment, the lamports
held by its escrow PDA, the payer authority's remaining wallet balance, and
the updated payer agent and service records. -/
structure PayOutcome where
  payment : Payment
  escrow_lamports : ℕ
  payer_wallet : ℕ
  payer_agent : Agent
  service : Service
deriving DecidableEq, Repr

/-- The `pay_for_service` instruction (`lib.rs` lines 194-247). The
`created_at + timeout_seconds` addition is checked `i64` arithmetic. -/
def pay_for_service (payer_key receiver_key service_key : ℕ)
    (payer_agent : Agent) (service : Service) (payer_wallet : ℕ)
    (amount : ℕ) (intent : String) (conditions : List String)
    (timeout_seconds : ℤ) (now : ℤ) : Except SolAgentError PayOutcome :=
  if amount = 0 then .error .ZeroAmount
  else if ¬(intent.length ≤ 256) then .error .IntentTooLong
  else if payer_wallet < amount then .error .TransferFailed
  else if now + timeout_seconds < i64Min ∨ i64Max < now + timeout_seconds then
    .error .ArithmeticAbort
  else
    .ok
      { payment :=
          { payer := payer_key
            receiver := receiver_key
            service := service_key
            amount := amount
            intent := intent
            conditions := conditions
            status := .Escrowed
            created_at := now
            timeout_at := now + timeout_seconds
            completed_at := 0 }
        escrow_lamports := amount
        payer_wallet := payer_wallet - amount
        payer_agent :=
          { payer_agent with
            services_requested := payer_agent.services_requested + 1
            total_spent := payer_agent.total_spent + amount }
        service := { service with total_orders := service.total_orders + 1 } }

/-- Result of a successful `release_payment`. -/
structure ReleaseOutcome where
  payment : Payment
  escrow_lamports : ℕ
  receiver_wallet : ℕ
  receiver_agent : Agent
  service : Service
deriving DecidableEq, Repr

/-- The `release_payment` instruction (`lib.rs` lines 251-287), with the
`ReleasePayment` account constraints in front: the payment must reference
the supplied payer agent account (`has_one = payer`) and the signer must be
that agent's authority (`has_one = authority`). The escrow debit is a
checked lamport subtraction. -/
def release_payment (payment : Payment) (escrow_lamports : ℕ)
    (payer_agent_key : ℕ) (payer_agent receiver_agent : Agent)
    (service : Service) (receiver_wallet : ℕ) (authority : ℕ) (now : ℤ) :
    Except SolAgentError ReleaseOutcome :=
  if ¬(payment.payer = payer_agent_key) then .error .Unauthorized
  else if ¬(payer_agent.authority = authority) then .error .Unauthorized
  else if ¬(payment.status = .Escrowed) then .error .PaymentNotEscrowed
  else if escrow_lamports < payment.amount then .error .ArithmeticAbort
  else
    .ok
      { payment := { payment with status := .Released, completed_at := now }
        escrow_lamports := escrow_lamports - payment.amount
        receiver_wallet := receiver_wallet + payment.amount
        receiver_agent :=
          { receiver_agent with
            services_completed := receiver_agent.services_completed + 1
            total_earned := receiver_agent.total_earned + payment.amount }
        service :=
          { service with
            total_revenue := service.total_revenue + payment.amount } }

/-- Result of a successful `refund_payment`, including the reason string of
the emitted `PaymentRefunded` event. -/
structure RefundOutcome where
  payment : Payment
  escrow_lamports : ℕ
  payer_wallet : ℕ
  reason : String
deriving DecidableEq, Repr

/-- The `refund_payment` instruction (`lib.rs` lines 290-330):
`is_timeout := now > payment.timeout_at`, `is_payer := authority =
payer_agent.authority`, and the refund is allowed when either holds. The
`RefundPayment` account struct places no constraint linking `payer_agent`
or `payer_authority` to the payment, so they are free arguments here. -/
def refund_payment (payment : Payment) (escrow_lamports : ℕ)
    (payer_agent : Agent) (payer_wallet : ℕ) (authority : ℕ) (now : ℤ) :
    Except SolAgentError RefundOutcome :=
  if ¬(payment.status = .Escrowed) then .error .PaymentNotEscrowed
  else if ¬(payment.timeout_at < now ∨ authority = payer_agent.authority) then
    .error .RefundNotAllowed
  else if escrow_lamports < payment.amount then .error .ArithmeticAbort
  else
    .ok
      { payment := { payment with status := .Refunded, completed_at := now }
        escrow_lamports := escrow_lamports - payment.amount
        payer_wallet := payer_wallet + payment.amount
        reason :=
          if payment.timeout_at < now then "timeout" else "payer_cancelled" }

/-! ## Streaming payment accrual engine (`lib.rs` lines 333-442) -/

/-- The `create_stream` instruction (`lib.rs` lines 333-379). The minimum
runway product `rate_per_second * 60` and the `max_end_at` addition are
checked arithmetic; `max_duration_seconds as i64` is a wrapping cast. -/
def create_stream (payer_key receiver_key : ℕ) (payer_wallet : ℕ)
    (rate_per_second max_duration_seconds deposit_amount : ℕ) (now : ℤ) :
    Except SolAgentError (Stream × ℕ) :=
  if rate_per_second = 0 then .error .ZeroAmount
  else if u64Size ≤ rate_per_second * 60 then .error .ArithmeticAbort
  else if deposit_amount < rate_per_second * 60 then
    .error .InsufficientDeposit
  else if payer_wallet < deposit_amount then .error .TransferFailed
  else if now + u64AsI64 max_duration_seconds < i64Min ∨
      i64Max < now + u64AsI64 max_duration_seconds then
    .error .ArithmeticAbort
  else
    .ok
      ({ payer := payer_key
         receiver := receiver_key
         rate_per_second := rate_per_second
         deposited := deposit_amount
         withdrawn := 0
         started_at := now
         max_end_at := now + u64AsI64 max_duration_seconds
         last_withdrawn_at := now
         is_active := true },
       payer_wallet - deposit_amount)

/-- The elapsed-seconds computation of `withdraw_stream` (`lib.rs` lines
386-388): `end_time = now.min(max_end_at)` and then the `i64` difference
`end_time - last_withdrawn_at` cast to `u64` with Rust `as` (wrapping)
semantics. -/
def streamElapsed (stream : Stream) (now : ℤ) : ℕ :=
  i64AsU64 (min now stream.max_end_at - stream.last_withdrawn_at)

/-- The local `amount_due = elapsed * stream.rate_per_second` of
`withdraw_stream` (`lib.rs` line 389). -/
def amountDue (stream : Stream) (now : ℤ) : ℕ :=
  streamElapsed stream now * stream.rate_per_second

/-- The local `available = stream.deposited - stream.withdrawn` of
`withdraw_stream` (`lib.rs` line 390). -/
def availableAmount (stream : Stream) : ℕ :=
  stream.deposited - stream.withdrawn

/-- The local `withdraw_amount = amount_due.min(available)` of
`withdraw_stream` (`lib.rs` line 391). -/
def withdrawAmount (stream : Stream) (now : ℤ) : ℕ :=
  min (amountDue stream now) (availableAmount stream)

/-- Result of a successful `withdraw_stream`: the updated stream, the
lamports paid to the receiver, and the remainder refunded to the payer by
the auto-close path (`0` when the stream stays open). -/
structure WithdrawOutcome where
  stream : Stream
  paid : ℕ
  refunded : ℕ
deriving DecidableEq, Repr

/-- The `withdraw_stream` instruction (`lib.rs` lines 382-442). The `i64`
subtraction producing the elapsed time, the multiplication
`elapsed * rate_per_second` and the subtraction `deposited - withdrawn` are
checked arithmetic; the `as u64` cast in between wraps. The auto-close
branch fires when the updated `withdrawn` reaches `deposited` or `now`
reaches `max_end_at`, and refunds `deposited - withdrawn` to the payer. -/
def withdraw_stream (stream : Stream) (now : ℤ) :
    Except SolAgentError WithdrawOutcome :=
  if ¬(stream.is_active = true) then .error .StreamNotActive
  else if min now stream.max_end_at - stream.last_withdrawn_at < i64Min ∨
      i64Max < min now stream.max_end_at - stream.last_withdrawn_at then
    .error .ArithmeticAbort
  else if u64Size ≤ amountDue stream now then .error .ArithmeticAbort
  else if stream.deposited < stream.withdrawn then .error .ArithmeticAbort
  else if withdrawAmount stream now = 0 then .error .NothingToWithdraw
  else if stream.deposited ≤ stream.withdrawn + withdrawAmount stream now ∨
      stream.max_end_at ≤ now then
    .ok
      { stream :=
          { stream with
            withdrawn := stream.withdrawn + withdrawAmount stream now
            last_withdrawn_at := now
            is_active := false }
        paid := withdrawAmount stream now
        refunded :=
          stream.deposited - (stream.withdrawn + withdrawAmount stream now) }
  else
    .ok
      { stream :=
          { stream with
            withdrawn := stream.withdrawn + withdrawAmount stream now
            last_withdrawn_at := now }
        paid := withdrawAmount stream now
        refunded := 0 }

/-- One call of `withdraw_stream` inside a call sequence, threading the
stream state and accumulating the lamports paid to the receiver and
refunded to the payer; a failing call aborts with no state change, so the
accumulator passes through unchanged. -/
def withdrawStep (acc : Stream × ℕ × ℕ) (now : ℤ) : Stream × ℕ × ℕ :=
  match withdraw_stream acc.1 now with
  | .error _ => acc
  | .ok r => (r.stream, acc.2.1 + r.paid, acc.2.2 + r.refunded)

/-- A sequence of `withdraw_stream` calls at the given clock readings,
starting from `stream` with zero accumulated transfers. -/
def runWithdrawals (stream : Stream) (nows : List ℤ) : Stream × ℕ × ℕ :=
  nows.foldl withdrawStep (stream, 0, 0)

/-- Invariant carried along a `withdraw_stream` call sequence whose stream
started (as `create_stream` initializes it) with `withdrawn = 0` and
deposit `d`: the deposit never changes, `withdrawn` stays within it, while
the stream is open the lamports paid to the receiver are exactly
`withdrawn` and nothing has been refunded, and once it is closed the paid
and refunded lamports add up to the whole deposit. -/
def StreamInv (d : ℕ) (acc : Stream × ℕ × ℕ) : Prop :=
  acc.1.deposited = d ∧
  acc.1.withdrawn ≤ d ∧
  (acc.1.is_active = true → acc.1.withdrawn = acc.2.1 ∧ acc.2.2 = 0) ∧
  (acc.1.is_active = false → acc.2.1 + acc.2.2 = d)

/-! ## Helper lemmas -/

/-- Invariant-relevant facts about any successful `withdraw_stream` call:
the stream was active with `withdrawn ≤ deposited`, `deposited` is
unchanged, `withdrawn` grows by exactly the positive amount paid and stays
within `deposited`, an open stream refunds nothing, and a closing call
refunds exactly the remainder `deposited - withdrawn`. -/
theorem withdraw_stream_ok_facts {s : Stream} {now : ℤ}
    {r : WithdrawOutcome} (h : withdraw_stream s now = .ok r) :
    s.is_active = true ∧ s.withdrawn ≤ s.deposited ∧
    r.stream.deposited = s.deposited ∧
    r.stream.withdrawn = s.withdrawn + r.paid ∧
    0 < r.paid ∧
    r.stream.withdrawn ≤ s.deposited ∧
    (r.stream.is_active = true → r.refunded = 0) ∧
    (r.stream.is_active = false →
      r.stream.withdrawn + r.refunded = s.deposited) := by
  have hmin : withdrawAmount s now ≤ availableAmount s :=
    Nat.min_le_right _ _
  have hav : availableAmount s = s.deposited - s.withdrawn := rfl
  rw [withdraw_stream] at h
  split_ifs at h with h1 h2 h3 h4 h5 h6
  any_goals simp at h
  all_goals
    subst h
    refine ⟨h1, Nat.not_lt.mp h4, rfl, rfl, Nat.pos_of_ne_zero h5, ?_, ?_, ?_⟩ <;>
      simp_all <;> omega

/-- A failing `withdraw_stream` call (in particular any call on an inactive
stream) leaves the sequence accumulator unchanged. -/
theorem withdrawStep_of_error {acc : Stream × ℕ × ℕ} {now : ℤ}
    {e : SolAgentError} (h : withdraw_stream acc.1 now = .error e) :
    withdrawStep acc now = acc := by
  unfold withdrawStep
  rw [h]

/-- One sequence step preserves the stream invariant. -/
theorem streamInv_step {d : ℕ} {acc : Stream × ℕ × ℕ} (now : ℤ)
    (hinv : StreamInv d acc) : StreamInv d (withdrawStep acc now) := by
  rcases hacc : withdraw_stream acc.1 now with e | r
  · rwa [withdrawStep_of_error hacc]
  · obtain ⟨hd, hwd, hopen, hclosed⟩ := hinv
    obtain ⟨hact, -, hd', hw', hpos, hw'd, ropen, rclosed⟩ :=
      withdraw_stream_ok_facts hacc
    obtain ⟨hpaid, href⟩ := hopen hact
    have hstep : withdrawStep acc now = (r.stream, acc.2.1 + r.paid, acc.2.2 + r.refunded) := by
      unfold withdrawStep
      rw [hacc]
    rw [hstep]
    refine ⟨by rw [hd', hd], by rw [hd] at hw'd; exact hw'd, ?_, ?_⟩
    · intro hact'
      have hr0 := ropen hact'
      constructor
      · show r.stream.withdrawn = acc.2.1 + r.paid
        omega
      · show acc.2.2 + r.refunded = 0
        omega
    · intro hact'
      have hrc := rclosed hact'
      show acc.2.1 + r.paid + (acc.2.2 + r.refunded) = d
      omega

/-- The stream invariant holds after any `withdraw_stream` call sequence on
a stream that starts with `withdrawn = 0` and is active. -/
theorem streamInv_run (s0 : Stream) (h0 : s0.withdrawn = 0)
    (ha : s0.is_active = true) (nows : List ℤ) :
    StreamInv s0.deposited (runWithdrawals s0 nows) := by
  have hbase : StreamInv s0.deposited (s0, 0, 0) := by
    refine ⟨rfl, ?_, fun _ => ⟨h0, rfl⟩, fun hfalse => ?_⟩
    · show s0.withdrawn ≤ s0.deposited
      omega
    · rw [ha] at hfalse
      exact Bool.noConfusion hfalse
  have hgen : ∀ (l : List ℤ) (acc : Stream × ℕ × ℕ),
      StreamInv s0.deposited acc →
      StreamInv s0.deposited (l.foldl withdrawStep acc) := by
    intro l
    induction l with
    | nil => intro acc hacc; exact hacc
    | cons x xs ih =>
        intro acc hacc
        exact ih _ (streamInv_step x hacc)
  exact hgen nows (s0, 0, 0) hbase

/-- Monotonicity of `withdrawn` across one sequence step. -/
theorem withdrawStep_withdrawn_mono (acc : Stream × ℕ × ℕ) (now : ℤ) :
    acc.1.withdrawn ≤ (withdrawStep acc now).1.withdrawn := by
  rcases hacc : withdraw_stream acc.1 now with e | r
  · rw [withdrawStep_of_error hacc]
  · obtain ⟨-, -, -, hw', -, -, -, -⟩ := withdraw_stream_ok_facts hacc
    have hstep : withdrawStep acc now = (r.stream, acc.2.1 + r.paid, acc.2.2 + r.refunded) := by
      unfold withdrawStep
      rw [hacc]
    rw [hstep]
    show acc.1.withdrawn ≤ r.stream.withdrawn
    omega

/-- Value of the base-2 logarithm at powers of two. -/
theorem logb_two_two_pow (k : ℕ) : Real.logb 2 ((2 : ℝ) ^ k) = k := by
  rw [Real.logb_pow, Real.logb_self_eq_one (by norm_num), mul_one]

/-- Below `31_250_000` lamports (that is, `1/32` of a whole unit) the
floating `base_rep` expression is nonpositive, so the saturating cast
yields `0`. -/
theorem baseRep_eq_zero_of_small {s : ℕ} (h0 : 0 < s)
    (h1 : s ≤ 31250000) : baseRep s = 0 := by
  unfold baseRep
  have hpos : (0 : ℝ) < (s : ℝ) / 1000000000 := by
    have : (0 : ℝ) < (s : ℝ) := by exact_mod_cast h0
    positivity
  rw [if_pos hpos]
  have hle : (s : ℝ) / 1000000000 ≤ 1 / 32 := by
    rw [div_le_div_iff₀ (by norm_num) (by norm_num)]
    have : (s : ℝ) ≤ 31250000 := by exact_mod_cast h1
    linarith
  have h32 : Real.logb 2 ((1 : ℝ) / 32) = -5 := by
    have hrw : (1 : ℝ) / 32 = ((2 : ℝ) ^ (5 : ℕ))⁻¹ := by norm_num
    rw [hrw, Real.logb_inv, logb_two_two_pow]
    norm_num
  have hlog : Real.logb 2 ((s : ℝ) / 1000000000) ≤ -5 := by
    calc Real.logb 2 ((s : ℝ) / 1000000000)
        ≤ Real.logb 2 ((1 : ℝ) / 32) :=
          Real.logb_le_logb_of_le (by norm_num) hpos hle
      _ = -5 := h32
  have hfloor : ⌊Real.logb 2 ((s : ℝ) / 1000000000) * 10 + 50⌋ ≤ 0 :=
    Int.floor_nonpos (by linarith)
  exact Int.toNat_of_nonpos hfloor

/-- The code's base reputation term is monotone in the staked amount. -/
theorem baseRep_mono {s1 s2 : ℕ} (h : s1 ≤ s2) : baseRep s1 ≤ baseRep s2 := by
  unfold baseRep
  have hdiv : (s1 : ℝ) / 1000000000 ≤ (s2 : ℝ) / 1000000000 := by
    have hcast : (s1 : ℝ) ≤ (s2 : ℝ) := by exact_mod_cast h
    gcongr
  by_cases h1 : (0 : ℝ) < (s1 : ℝ) / 1000000000
  · have h2 : (0 : ℝ) < (s2 : ℝ) / 1000000000 := lt_of_lt_of_le h1 hdiv
    rw [if_pos h1, if_pos h2]
    apply Int.toNat_le_toNat
    apply Int.floor_le_floor
    have hlog := Real.logb_le_logb_of_le (b := 2) (by norm_num) h1 hdiv
    linarith
  · rw [if_neg h1]
    exact Nat.zero_le _

/-! ## Claim theorems -/

/-- C1 (counterexample): with half a whole unit staked (`500_000_000`
native units) and no feedback or completions, the code computes
reputation `40` (the `f64` computation takes `log2` of the fractional
value `0.5`), while the reference definition of the spec (whole-unit
integer division) gives `0`; in particular the code's base is not `0` for
every stake strictly below one whole unit, refuting the claimed equality
of the two definitions. -/
theorem reputation_fractional_units_counterexample_c1 :
    reputationScore 500000000 0 0 = 40 ∧
    reputationScoreSpecRef 500000000 0 0 = 0 := by
  constructor
  · simp only [reputationScore, baseRep]
    have hcast : ((500000000 : ℕ) : ℝ) / 1000000000 = (2 : ℝ)⁻¹ := by
      norm_num
    rw [hcast, if_pos (by norm_num : (0 : ℝ) < (2 : ℝ)⁻¹), Real.logb_inv,
      Real.logb_self_eq_one (by norm_num)]
    have hforty : (-1 : ℝ) * 10 + 50 = ((40 : ℤ) : ℝ) := by norm_num
    rw [hforty, Int.floor_intCast]
    rfl
  · simp only [reputationScoreSpecRef, baseRepSpecRef]
    norm_num

/-- C1 (amended): the reputation score equals
`base + min(feedbacks_received, 100) * 2 + min(services_completed, 500)`
where `base` is computed from the fractional unit value
`total_staked / 10^9` (with the negative results of the saturating cast
clamped to `0`), not from whole-unit integer division; consequently the
base term is `0` exactly on the small range `total_staked ≤ 31_250_000`
(`1/32` of a unit), not on the whole range below one unit. -/
theorem reputation_base_zero_small_stake_c1 (s f c : ℕ) (h0 : 0 < s)
    (h1 : s ≤ 31250000) :
    reputationScore s f c = min f 100 * 2 + min c 500 := by
  unfold reputationScore
  rw [baseRep_eq_zero_of_small h0 h1, Nat.zero_add]

/-- Witness for the amended C1 at `total_staked = 31_250_000`,
`feedbacks_received = 7`, `services_completed = 3`. -/
theorem reputation_base_zero_small_stake_c1_witness :
    (0 : ℕ) < 31250000 ∧ (31250000 : ℕ) ≤ 31250000 ∧
    reputationScore 31250000 7 3 = min 7 100 * 2 + min 3 500 :=
  ⟨by decide, by decide,
    reputation_base_zero_small_stake_c1 31250000 7 3 (by decide)
      (by decide)⟩

/-- C7: the reputation score is monotone in its three inputs jointly (so
in particular increasing any single one of `total_staked`,
`feedbacks_received`, `services_completed` with the others fixed never
decreases the recomputed score). -/
theorem reputation_monotone_c7 (s1 s2 f1 f2 c1 c2 : ℕ) (hs : s1 ≤ s2)
    (hf : f1 ≤ f2) (hc : c1 ≤ c2) :
    reputationScore s1 f1 c1 ≤ reputationScore s2 f2 c2 := by
  unfold reputationScore
  have hb := baseRep_mono hs
  have hmf : min f1 100 ≤ min f2 100 := min_le_min hf le_rfl
  have hmc : min c1 500 ≤ min c2 500 := min_le_min hc le_rfl
  omega

/-- Witness for C7 at concrete increasing inputs. -/
theorem reputation_monotone_c7_witness :
    (5 : ℕ) ≤ 10 ∧ (6 : ℕ) ≤ 8 ∧ (7 : ℕ) ≤ 9 ∧
    reputationScore 5 6 7 ≤ reputationScore 10 8 9 :=
  ⟨by decide, by decide, by decide,
    reputation_monotone_c7 5 10 6 8 7 9 (by decide) (by decide)
      (by decide)⟩

/-- C4: along every `withdraw_stream` call sequence on a stream (created
active with `withdrawn = 0`), the deposit is unchanged, `withdrawn` is
non-decreasing call by call and never exceeds `deposited`, and once a call
has set `is_active` to `false` the lamports paid to the receiver plus the
remainder refunded to the payer equal `deposited`. -/
theorem stream_withdraw_sequence_conservation_c4 (s0 : Stream)
    (h0 : s0.withdrawn = 0) (ha : s0.is_active = true) (nows : List ℤ) :
    (runWithdrawals s0 nows).1.deposited = s0.deposited ∧
    (runWithdrawals s0 nows).1.withdrawn ≤ s0.deposited ∧
    (∀ now : ℤ, (runWithdrawals s0 nows).1.withdrawn ≤
      (runWithdrawals s0 (nows ++ [now])).1.withdrawn) ∧
    ((runWithdrawals s0 nows).1.is_active = false →
      (runWithdrawals s0 nows).2.1 + (runWithdrawals s0 nows).2.2 =
        s0.deposited) := by
  obtain ⟨hd, hwd, hopen, hclosed⟩ := streamInv_run s0 h0 ha nows
  refine ⟨hd, hwd, ?_, hclosed⟩
  intro now
  have happ : runWithdrawals s0 (nows ++ [now]) =
      withdrawStep (runWithdrawals s0 nows) now := by
    unfold runWithdrawals
    rw [List.foldl_append]
    rfl
  rw [happ]
  exact withdrawStep_withdrawn_mono _ now

/-- Witness for C4 at the concrete scenario stream and the call sequence
`[50, 150, 170]`. -/
theorem stream_withdraw_sequence_conservation_c4_witness :
    ({ payer := 1, receiver := 2, rate_per_second := 10, deposited := 1000,
       withdrawn := 0, started_at := 0, max_end_at := 200,
       last_withdrawn_at := 0, is_active := true } : Stream).withdrawn = 0 ∧
    ({ payer := 1, receiver := 2, rate_per_second := 10, deposited := 1000,
       withdrawn := 0, started_at := 0, max_end_at := 200,
       last_withdrawn_at := 0, is_active := true } : Stream).is_active
      = true ∧
    (runWithdrawals
      { payer := 1, receiver := 2, rate_per_second := 10, deposited := 1000,
        withdrawn := 0, started_at := 0, max_end_at := 200,
        last_withdrawn_at := 0, is_active := true } [50, 150]).1.withdrawn
      ≤ 1000 ∧
    (runWithdrawals
      { payer := 1, receiver := 2, rate_per_second := 10, deposited := 1000,
        withdrawn := 0, started_at := 0, max_end_at := 200,
        last_withdrawn_at := 0, is_active := true } [50, 150]).1.withdrawn
      ≤ (runWithdrawals
      { payer := 1, receiver := 2, rate_per_second := 10, deposited := 1000,
        withdrawn := 0, started_at := 0, max_end_at := 200,
        last_withdrawn_at := 0, is_active := true }
        ([50, 150] ++ [170])).1.withdrawn ∧
    ((runWithdrawals
      { payer := 1, receiver := 2, rate_per_second := 10, deposited := 1000,
        withdrawn := 0, started_at := 0, max_end_at := 200,
        last_withdrawn_at := 0, is_active := true } [50, 150]).1.is_active
        = false →
      (runWithdrawals
      { payer := 1, receiver := 2, rate_per_second := 10, deposited := 1000,
        withdrawn := 0, started_at := 0, max_end_at := 200,
        last_withdrawn_at := 0, is_active := true } [50, 150]).2.1 +
      (runWithdrawals
      { payer := 1, receiver := 2, rate_per_second := 10, deposited := 1000,
        withdrawn := 0, started_at := 0, max_end_at := 200,
        last_withdrawn_at := 0, is_active := true } [50, 150]).2.2 = 1000) :=
  ⟨rfl, rfl,
    (stream_withdraw_sequence_conservation_c4 _ rfl rfl [50, 150]).2.1,
    (stream_withdraw_sequence_conservation_c4 _ rfl rfl [50, 150]).2.2.1 170,
    (stream_withdraw_sequence_conservation_c4 _ rfl rfl [50, 150]).2.2.2⟩

/-- C5: when the checked multiplication `elapsed * rate_per_second` of
`withdraw_stream` would exceed the 64-bit width, the whole call aborts
with an arithmetic error instead of wrapping, for every stream state and
clock reading (the earlier `i64` subtraction being in range). -/
theorem withdraw_stream_mul_overflow_aborts_c5 (stream : Stream) (now : ℤ)
    (ha : stream.is_active = true)
    (hlo : i64Min ≤ min now stream.max_end_at - stream.last_withdrawn_at)
    (hhi : min now stream.max_end_at - stream.last_withdrawn_at ≤ i64Max)
    (hov : u64Size ≤ amountDue stream now) :
    withdraw_stream stream now = .error .ArithmeticAbort := by
  rw [withdraw_stream, if_neg (by simp [ha]),
    if_neg (by push_neg; exact ⟨hlo, hhi⟩), if_pos hov]

/-- Witness for C5: an active stream with `rate_per_second = 4` and
`2^62` elapsed seconds overflows `elapsed * rate` and aborts. -/
theorem withdraw_stream_mul_overflow_aborts_c5_witness :
    ({ payer := 1, receiver := 2, rate_per_second := 4, deposited := 1000,
       withdrawn := 0, started_at := 0, max_end_at := 2 ^ 62,
       last_withdrawn_at := 0, is_active := true } : Stream).is_active
      = true ∧
    i64Min ≤ (2 ^ 62 : ℤ) ∧ (2 ^ 62 : ℤ) ≤ i64Max ∧
    u64Size ≤ amountDue
      { payer := 1, receiver := 2, rate_per_second := 4, deposited := 1000,
        withdrawn := 0, started_at := 0, max_end_at := 2 ^ 62,
        last_withdrawn_at := 0, is_active := true } (2 ^ 62) ∧
    withdraw_stream
      { payer := 1, receiver := 2, rate_per_second := 4, deposited := 1000,
        withdrawn := 0, started_at := 0, max_end_at := 2 ^ 62,
        last_withdrawn_at := 0, is_active := true } (2 ^ 62) =
      .error .ArithmeticAbort :=
  ⟨rfl, by decide, by decide, by decide,
    withdraw_stream_mul_overflow_aborts_c5 _ _ rfl (by decide) (by decide)
      (by decide)⟩

/-- C6 (code-bug evidence): on a regressed clock reading the elapsed
computation of `withdraw_stream` does not clamp to `0`: with
`last_withdrawn_at = 100` and `now = 50` the `as u64` cast wraps the
negative `i64` difference to `2^64 - 50`, and with `rate_per_second = 1`
the call then succeeds and immediately pays out the entire remaining
deposit instead of failing with `NothingToWithdraw`. -/
theorem stream_elapsed_wraps_on_clock_regression_c6 :
    streamElapsed
      { payer := 1, receiver := 2, rate_per_second := 1, deposited := 1000,
        withdrawn := 0, started_at := 0, max_end_at := 1000,
        last_withdrawn_at := 100, is_active := true } 50 = 2 ^ 64 - 50 ∧
    ¬ streamElapsed
      { payer := 1, receiver := 2, rate_per_second := 1, deposited := 1000,
        withdrawn := 0, started_at := 0, max_end_at := 1000,
        last_withdrawn_at := 100, is_active := true } 50 = 0 ∧
    withdraw_stream
      { payer := 1, receiver := 2, rate_per_second := 1, deposited := 1000,
        withdrawn := 0, started_at := 0, max_end_at := 1000,
        last_withdrawn_at := 100, is_active := true } 50 =
      .ok
        { stream :=
            { payer := 1, receiver := 2, rate_per_second := 1,
              deposited := 1000, withdrawn := 1000, started_at := 0,
              max_end_at := 1000, last_withdrawn_at := 50,
              is_active := false }
          paid := 1000
          refunded := 0 } := by
  refine ⟨by decide, by decide, ?_⟩
  rfl

/-- C8: the concrete streaming scenario. Opening a stream at `t = 0` with
`rate_per_second = 10`, `max_duration_seconds = 200`, `deposit = 1000`
gives the expected initial stream; withdrawing at `t = 50` pays `500`
and leaves it active with `withdrawn = 500`; at `t = 150` the elapsed
time is `100`, `amount_due = 1000`, `available = 500`, the call pays
`500`, leaves `withdrawn = 1000`, auto-closes the stream and refunds `0`
to the payer. -/
theorem stream_scenario_c8 :
    create_stream 1 2 5000 10 200 1000 0 =
      .ok
        ({ payer := 1, receiver := 2, rate_per_second := 10,
           deposited := 1000, withdrawn := 0, started_at := 0,
           max_end_at := 200, last_withdrawn_at := 0, is_active := true },
         4000) ∧
    withdraw_stream
      { payer := 1, receiver := 2, rate_per_second := 10, deposited := 1000,
        withdrawn := 0, started_at := 0, max_end_at := 200,
        last_withdrawn_at := 0, is_active := true } 50 =
      .ok
        { stream :=
            { payer := 1, receiver := 2, rate_per_second := 10,
              deposited := 1000, withdrawn := 500, started_at := 0,
              max_end_at := 200, last_withdrawn_at := 50,
              is_active := true }
          paid := 500
          refunded := 0 } ∧
    streamElapsed
      { payer := 1, receiver := 2, rate_per_second := 10, deposited := 1000,
        withdrawn := 500, started_at := 0, max_end_at := 200,
        last_withdrawn_at := 50, is_active := true } 150 = 100 ∧
    amountDue
      { payer := 1, receiver := 2, rate_per_second := 10, deposited := 1000,
        withdrawn := 500, started_at := 0, max_end_at := 200,
        last_withdrawn_at := 50, is_active := true } 150 = 1000 ∧
    availableAmount
      { payer := 1, receiver := 2, rate_per_second := 10, deposited := 1000,
        withdrawn := 500, started_at := 0, max_end_at := 200,
        last_withdrawn_at := 50, is_active := true } = 500 ∧
    withdraw_stream
      { payer := 1, receiver := 2, rate_per_second := 10, deposited := 1000,
        withdrawn := 500, started_at := 0, max_end_at := 200,
        last_withdrawn_at := 50, is_active := true } 150 =
      .ok
        { stream :=
            { payer := 1, receiver := 2, rate_per_second := 10,
              deposited := 1000, withdrawn := 1000, started_at := 0,
              max_end_at := 200, last_withdrawn_at := 150,
              is_active := false }
          paid := 500
          refunded := 0 } := by
  refine ⟨rfl, rfl, by decide, by decide, by decide, rfl⟩

/-- C2: a payment whose status is any non-`Escrowed` value (`Released`,
`Refunded` or `Disputed`) is terminal: a well-formed `release_payment`
call (accounts satisfying the Anchor constraints) and any
`refund_payment` call both fail with the state error
`PaymentNotEscrowed`, an aborted instruction, so no balance or counter
changes. -/
theorem payment_terminal_states_absorbing_c2 (payment : Payment)
    (escrow payer_wallet receiver_wallet : ℕ) (payer_agent_key : ℕ)
    (payer_agent receiver_agent : Agent) (service : Service)
    (authority : ℕ) (now now2 : ℤ)
    (hpk : payment.payer = payer_agent_key)
    (hauth : payer_agent.authority = authority)
    (hstat : payment.status ≠ .Escrowed) :
    release_payment payment escrow payer_agent_key payer_agent
        receiver_agent service receiver_wallet authority now =
      .error .PaymentNotEscrowed ∧
    refund_payment payment escrow payer_agent payer_wallet authority now2 =
      .error .PaymentNotEscrowed := by
  constructor
  · rw [release_payment, if_neg (by simp [hpk]), if_neg (by simp [hauth]),
      if_pos hstat]
  · rw [refund_payment, if_pos hstat]

/-- Witness for C2 at a concrete `Disputed` payment. -/
theorem payment_terminal_states_absorbing_c2_witness :
    ({ payer := 11, receiver := 12, service := 13, amount := 100,
       intent := "job", conditions := [], status := .Disputed,
       created_at := 0, timeout_at := 60, completed_at := 0 } :
        Payment).payer = 11 ∧
    ({ authority := 5, reputation_score := 0, total_staked := 0,
       total_earned := 0, total_spent := 0, services_completed := 0,
       services_requested := 0, feedbacks_received := 0, registered_at := 0,
       is_active := true } : Agent).authority = 5 ∧
    ({ payer := 11, receiver := 12, service := 13, amount := 100,
       intent := "job", conditions := [], status := .Disputed,
       created_at := 0, timeout_at := 60, completed_at := 0 } :
        Payment).status ≠ .Escrowed ∧
    release_payment
      { payer := 11, receiver := 12, service := 13, amount := 100,
        intent := "job", conditions := [], status := .Disputed,
        created_at := 0, timeout_at := 60, completed_at := 0 } 100 11
      { authority := 5, reputation_score := 0, total_staked := 0,
        total_earned := 0, total_spent := 0, services_completed := 0,
        services_requested := 0, feedbacks_received := 0, registered_at := 0,
        is_active := true }
      { authority := 6, reputation_score := 0, total_staked := 0,
        total_earned := 0, total_spent := 0, services_completed := 0,
        services_requested := 0, feedbacks_received := 0, registered_at := 0,
        is_active := true }
      { provider := 12, authority := 6, price_lamports := 100,
        total_orders := 1, total_revenue := 0, avg_rating := 0,
        is_active := true } 0 5 7 = .error .PaymentNotEscrowed ∧
    refund_payment
      { payer := 11, receiver := 12, service := 13, amount := 100,
        intent := "job", conditions := [], status := .Disputed,
        created_at := 0, timeout_at := 60, completed_at := 0 } 100
      { authority := 5, reputation_score := 0, total_staked := 0,
        total_earned := 0, total_spent := 0, services_completed := 0,
        services_requested := 0, feedbacks_received := 0, registered_at := 0,
        is_active := true } 0 5 8 = .error .PaymentNotEscrowed :=
  ⟨rfl, rfl, by decide,
    (payment_terminal_states_absorbing_c2 _ 100 0 0 11 _
      { authority := 6, reputation_score := 0, total_staked := 0,
        total_earned := 0, total_spent := 0, services_completed := 0,
        services_requested := 0, feedbacks_received := 0, registered_at := 0,
        is_active := true }
      { provider := 12, authority := 6, price_lamports := 100,
        total_orders := 1, total_revenue := 0, avg_rating := 0,
        is_active := true } 5 7 8 rfl rfl (by decide)).1,
    (payment_terminal_states_absorbing_c2 _ 100 0 0 11 _
      { authority := 6, reputation_score := 0, total_staked := 0,
        total_earned := 0, total_spent := 0, services_completed := 0,
        services_requested := 0, feedbacks_received := 0, registered_at := 0,
        is_active := true }
      { provider := 12, authority := 6, price_lamports := 100,
        total_orders := 1, total_revenue := 0, avg_rating := 0,
        is_active := true } 5 7 8 rfl rfl (by decide)).2⟩

/-- C3: a refund of an `Escrowed` payment (whose escrow holds the
amount) succeeds exactly when the clock has passed `timeout_at` (any
caller) or the caller is the supplied payer agent's authority; on success
the full amount moves from the escrow back to the payer wallet, the
status becomes `Refunded`, `completed_at` is set to `now`, and the
recorded reason is `timeout` when `now > timeout_at` and
`payer_cancelled` otherwise; in the disallowed case it fails with
`RefundNotAllowed`. -/
theorem refund_payment_authorization_c3 (payment : Payment)
    (escrow payer_wallet : ℕ) (payer_agent : Agent) (authority : ℕ)
    (now : ℤ) (hstat : payment.status = .Escrowed)
    (hesc : payment.amount ≤ escrow) :
    ((payment.timeout_at < now ∨ authority = payer_agent.authority) →
      refund_payment payment escrow payer_agent payer_wallet authority now =
        .ok
          { payment :=
              { payment with status := .Refunded, completed_at := now }
            escrow_lamports := escrow - payment.amount
            payer_wallet := payer_wallet + payment.amount
            reason :=
              if payment.timeout_at < now then "timeout"
              else "payer_cancelled" }) ∧
    (¬(payment.timeout_at < now ∨ authority = payer_agent.authority) →
      refund_payment payment escrow payer_agent payer_wallet authority now =
        .error .RefundNotAllowed) := by
  constructor
  · intro hok
    rw [refund_payment, if_neg (not_not_intro hstat),
      if_neg (not_not_intro hok), if_neg (Nat.not_lt.mpr hesc)]
  · intro hbad
    rw [refund_payment, if_neg (not_not_intro hstat), if_pos hbad]

/-- Witness for C3: a timed-out escrowed payment refunded by a stranger
caller, with reason `timeout`. -/
theorem refund_payment_authorization_c3_witness :
    ({ payer := 11, receiver := 12, service := 13, amount := 100,
       intent := "job", conditions := [], status := .Escrowed,
       created_at := 0, timeout_at := 60, completed_at := 0 } :
        Payment).status = .Escrowed ∧
    (100 : ℕ) ≤ 100 ∧
    ((60 : ℤ) < 61 ∨ (99 : ℕ) = 5) ∧
    refund_payment
      { payer := 11, receiver := 12, service := 13, amount := 100,
        intent := "job", conditions := [], status := .Escrowed,
        created_at := 0, timeout_at := 60, completed_at := 0 } 100
      { authority := 5, reputation_score := 0, total_staked := 0,
        total_earned := 0, total_spent := 0, services_completed := 0,
        services_requested := 0, feedbacks_received := 0, registered_at := 0,
        is_active := true } 7 99 61 =
      .ok
        { payment :=
            { payer := 11, receiver := 12, service := 13, amount := 100,
              intent := "job", conditions := [], status := .Refunded,
              created_at := 0, timeout_at := 60, completed_at := 61 }
          escrow_lamports := 0
          payer_wallet := 107
          reason := "timeout" } :=
  ⟨rfl, by decide, Or.inl (by decide),
    (refund_payment_authorization_c3 _ 100 7 _ 99 61 rfl (by decide)).1
      (Or.inl (by decide))⟩

/-- C9: `submit_feedback` ties no authorization to the rater account:
the signing key is never inspected, so for any in-range rating and
comment the call succeeds, increments the ratee's `feedbacks_received`,
and two runs differing only in the signer give identical results. -/
theorem submit_feedback_signer_independent_c9
    (auth1 auth2 from_key to_key : ℕ) (to_agent : Agent) (rating : ℕ)
    (comment : String) (now : ℤ) (hr1 : 1 ≤ rating) (hr5 : rating ≤ 5)
    (hc : comment.length ≤ 256) :
    submit_feedback auth1 from_key to_key to_agent rating comment now =
      submit_feedback auth2 from_key to_key to_agent rating comment now ∧
    ∃ fb ta,
      submit_feedback auth1 from_key to_key to_agent rating comment now =
        .ok (fb, ta) ∧
      ta.feedbacks_received = to_agent.feedbacks_received + 1 := by
  refine ⟨rfl, ?_⟩
  rw [submit_feedback, if_neg (not_not_intro ⟨hr1, hr5⟩),
    if_neg (not_not_intro hc)]
  exact ⟨_, _, rfl, rfl⟩

/-- Witness for C9: rating `5` with an empty comment, signed by key `7`
(compared against key `8`). -/
theorem submit_feedback_signer_independent_c9_witness :
    (1 : ℕ) ≤ 5 ∧ (5 : ℕ) ≤ 5 ∧ ("".length ≤ 256) ∧
    (submit_feedback 7 21 22
        { authority := 5, reputation_score := 0, total_staked := 0,
          total_earned := 0, total_spent := 0, services_completed := 0,
          services_requested := 0, feedbacks_received := 0,
          registered_at := 0, is_active := true } 5 "" 99 =
      submit_feedback 8 21 22
        { authority := 5, reputation_score := 0, total_staked := 0,
          total_earned := 0, total_spent := 0, services_completed := 0,
          services_requested := 0, feedbacks_received := 0,
          registered_at := 0, is_active := true } 5 "" 99) ∧
    (∃ fb ta,
      submit_feedback 7 21 22
        { authority := 5, reputation_score := 0, total_staked := 0,
          total_earned := 0, total_spent := 0, services_completed := 0,
          services_requested := 0, feedbacks_received := 0,
          registered_at := 0, is_active := true } 5 "" 99 = .ok (fb, ta) ∧
      ta.feedbacks_received =
        ({ authority := 5, reputation_score := 0, total_staked := 0,
           total_earned := 0, total_spent := 0, services_completed := 0,
           services_requested := 0, feedbacks_received := 0,
           registered_at := 0, is_active := true } :
            Agent).feedbacks_received + 1) :=
  ⟨by decide, by decide, by decide,
    (submit_feedback_signer_independent_c9 7 8 21 22 _ 5 "" 99 (by decide)
      (by decide) (by decide)).1,
    (submit_feedback_signer_independent_c9 7 8 21 22 _ 5 "" 99 (by decide)
      (by decide) (by decide)).2⟩

/-- C10: `pay_for_service` never validates `timeout_seconds`. With any
`timeout_seconds ≤ 0` (and a positive amount, a bounded intent, a funded
wallet and in-range `i64` arithmetic) creation succeeds with
`timeout_at = created_at + timeout_seconds ≤ created_at`, so at every
clock reading strictly after creation the `now > timeout_at` refund
condition already holds and any caller whatsoever can refund the payment
with reason `timeout`. -/
theorem pay_for_service_nonpositive_timeout_c10
    (payer_key receiver_key service_key : ℕ) (payer_agent : Agent)
    (service : Service) (wallet amount : ℕ) (intent : String)
    (conditions : List String) (timeout_seconds now : ℤ)
    (hamt : 0 < amount) (hint : intent.length ≤ 256) (hw : amount ≤ wallet)
    (hts : timeout_seconds ≤ 0) (hlo : i64Min ≤ now + timeout_seconds)
    (hhi : now ≤ i64Max) :
    ∃ out : PayOutcome,
      pay_for_service payer_key receiver_key service_key payer_agent
          service wallet amount intent conditions timeout_seconds now =
        .ok out ∧
      out.payment.timeout_at = now + timeout_seconds ∧
      out.payment.timeout_at ≤ out.payment.created_at ∧
      ∀ (caller : ℕ) (any_agent : Agent) (pw : ℕ) (now2 : ℤ),
        out.payment.created_at < now2 →
        refund_payment out.payment out.escrow_lamports any_agent pw caller
            now2 =
          .ok
            { payment :=
                { out.payment with
                  status := .Refunded, completed_at := now2 }
              escrow_lamports := 0
              payer_wallet := pw + amount
              reason := "timeout" } := by
  rw [pay_for_service, if_neg (by omega), if_neg (not_not_intro hint),
    if_neg (Nat.not_lt.mpr hw), if_neg (by push_neg; omega)]
  refine ⟨_, rfl, rfl, by show now + timeout_seconds ≤ now; omega, ?_⟩
  intro caller any_agent pw now2 hnow2
  have htime : now + timeout_seconds < now2 := by
    have : now < now2 := hnow2
    omega
  rw [refund_payment, if_neg (not_not_intro rfl),
    if_neg (not_not_intro (Or.inl htime)), if_neg (Nat.not_lt.mpr le_rfl)]
  simp only [if_pos htime, Nat.sub_self]

/-- Witness for C10: `timeout_seconds = -30` at creation time `1000`; the
payment is immediately refundable by the stranger caller `99`. -/
theorem pay_for_service_nonpositive_timeout_c10_witness :
    (0 : ℕ) < 100 ∧ ("job".length ≤ 256) ∧ (100 : ℕ) ≤ 500 ∧
    (-30 : ℤ) ≤ 0 ∧ i64Min ≤ (1000 : ℤ) + -30 ∧ (1000 : ℤ) ≤ i64Max ∧
    (∃ out : PayOutcome,
      pay_for_service 11 12 13
        { authority := 5, reputation_score := 0, total_staked := 0,
          total_earned := 0, total_spent := 0, services_completed := 0,
          services_requested := 0, feedbacks_received := 0,
          registered_at := 0, is_active := true }
        { provider := 12, authority := 6, price_lamports := 100,
          total_orders := 0, total_revenue := 0, avg_rating := 0,
          is_active := true } 500 100 "job" [] (-30) 1000 = .ok out ∧
      out.payment.timeout_at = 1000 + -30 ∧
      out.payment.timeout_at ≤ out.payment.created_at ∧
      ∀ (caller : ℕ) (any_agent : Agent) (pw : ℕ) (now2 : ℤ),
        out.payment.created_at < now2 →
        refund_payment out.payment out.escrow_lamports any_agent pw caller
            now2 =
          .ok
            { payment :=
                { out.payment with
                  status := .Refunded, completed_at := now2 }
              escrow_lamports := 0
              payer_wallet := pw + 100
              reason := "timeout" }) :=
  ⟨by decide, by decide, by decide, by decide, by decide, by decide,
    pay_for_service_nonpositive_timeout_c10 11 12 13 _ _ 500 100 "job" []
      (-30) 1000 (by decide) (by decide) (by decide) (by decide)
      (by decide) (by decide)⟩

end Solagent
